import Mathlib

set_option maxRecDepth 100000
set_option maxHeartbeats 2000000

/-!
Verification of the invoice-dashboard mutation layer and search reflector.

The development shallowly embeds the server actions (`createInvoice`,
`updateInvoice`, `authenticate`), the Zod form schema they share, and the
client-side `handleSearch` callback.

JavaScript numbers are modelled as exact IEEE-754 binary64 values: every
finite double is an integer multiple of `2 ^ (-1074)`, so a double is
represented by that integer (type `JsNumber`), and `ratToF64` /`jsMul`
implement correct rounding (round to nearest, ties to even, 53-bit
significand, subnormal clamp; overflow to infinity is outside the model
because form amounts never approach it).

Side effects (SQL statements, cache revalidation, redirects) are recorded as
an explicit effect trace, and the database outcome is an oracle parameter
`dbOk`, so temporal claims become statements about the returned trace.
-/

namespace NextDashboard

/-- Two to a natural power, via the shift primitive. -/
def pow2 (k : ℕ) : ℕ :=
  Nat.shiftLeft 1 k

/-- Fuel-driven floor of the base-2 logarithm: each step strips 256, 32 or
one binary digit, so any fuel of at least `log2 n` steps is enough. -/
def natLog2Aux : ℕ → ℕ → ℕ
  | 0, _ => 0
  | fuel + 1, n =>
    if n < 2 then 0
    else if n < 4294967296 then natLog2Aux fuel (n / 2) + 1
    else if n < pow2 256 then natLog2Aux fuel (n / 4294967296) + 32
    else natLog2Aux fuel (Nat.shiftRight n 256) + 256

/-- Floor of the base-2 logarithm of a natural number (`0` for `0`). -/
def natLog2F (n : ℕ) : ℕ :=
  natLog2Aux n n

/-- Floor of the base-2 logarithm of the positive rational `p / q`. -/
def floorLog2Rat (p q : ℕ) : ℤ :=
  let e0 : ℤ := (natLog2F p : ℤ) - (natLog2F q : ℤ)
  if p * pow2 (-e0).toNat < q * pow2 e0.toNat then e0 - 1 else e0

/-- Integer rounding of `a / b` (for `b > 0`): round to nearest, ties to the
even quotient. -/
def roundHalfEvenDiv (a b : ℕ) : ℕ :=
  let q := a / b
  let r := a % b
  if 2 * r < b then q
  else if b < 2 * r then q + 1
  else if q % 2 = 0 then q else q + 1

/-- Nearest binary64 value to the positive rational `p / q`, returned as an
integer multiple of `2 ^ (-1074)`: round to a 53-bit significand at the
magnitude-determined exponent, clamped to the subnormal grid. -/
def roundPosToF64 (p q : ℕ) : ℕ :=
  let e := floorLog2Rat p q
  let u : ℤ := if e - 52 < -1074 then -1074 else e - 52
  let m := roundHalfEvenDiv (p * pow2 (-u).toNat) (q * pow2 u.toNat)
  m * pow2 (u + 1074).toNat

/-- A JavaScript number in the finite double range, as the exact integer
`value * 2 ^ 1074`. -/
abbrev JsNumber := ℤ

/-- The double nearest to the (signed) rational `p / q`. -/
def ratToF64 (neg : Bool) (p q : ℕ) : JsNumber :=
  if p = 0 then 0
  else if neg then -(roundPosToF64 p q : ℤ) else (roundPosToF64 p q : ℤ)

/-- The double with the exact value of a small natural number (exact for
`n < 2 ^ 53`, which covers every literal in the program). -/
def jsOfNat (n : ℕ) : JsNumber :=
  ((n * pow2 1074 : ℕ) : ℤ)

/-- IEEE-754 binary64 multiplication: the exact product of the two
represented values, correctly rounded back to a double. -/
def jsMul (x y : JsNumber) : JsNumber :=
  if x = 0 ∨ y = 0 then 0
  else
    let m : ℤ := (roundPosToF64 (x.natAbs * y.natAbs) (pow2 2148) : ℤ)
    if (0 < x ∧ y < 0) ∨ (x < 0 ∧ 0 < y) then -m else m

/-- Digits of a non-empty decimal numeral, as a natural number. -/
def natOfDigits (cs : List Char) : Option ℕ :=
  if cs = [] then none
  else if cs.all Char.isDigit then
    some (cs.foldl (fun n c => 10 * n + (c.toNat - 48)) 0)
  else none

/-- Unsigned decimal numeral with an optional fractional part, exactly as
JavaScript `Number` accepts it (`"1."` and `".5"` are legal, `""` and
`"1.2.3"` are not), as an exact numerator/denominator pair. -/
def parseUnsignedDecimal (cs : List Char) : Option (ℕ × ℕ) :=
  match cs.splitOn '.' with
  | [intPart] => (natOfDigits intPart).map (fun n => (n, 1))
  | [intPart, fracPart] =>
    if intPart = [] ∧ fracPart = [] then none
    else
      match (if intPart = [] then some 0 else natOfDigits intPart),
          (if fracPart = [] then some 0 else natOfDigits fracPart) with
      | some i, some f => some (i * 10 ^ fracPart.length + f, 10 ^ fracPart.length)
      | _, _ => none
  | _ => none

/-- JavaScript `Number(string)` on the decimal fragment it accepts from form
input: the empty string is `0`, a leading minus sign negates, anything
malformed is `NaN` (modelled as `none`); the value is the nearest double. -/
def parseDecimal (s : String) : Option JsNumber :=
  match s.toList with
  | [] => some 0
  | c :: rest =>
    if c = '-' then (parseUnsignedDecimal rest).map (fun pq => ratToF64 true pq.1 pq.2)
    else (parseUnsignedDecimal (c :: rest)).map (fun pq => ratToF64 false pq.1 pq.2)

/-- `z.coerce.number()` applied to a `FormData` field: a missing field is
`null`, and `Number(null)` is `0`; a present field is coerced from its
string. `none` is `NaN` (coercion failure). -/
def coerceNumber (v : Option String) : Option JsNumber :=
  match v with
  | none => some 0
  | some s => parseDecimal s

/-- The raw form submission: `FormData.get` yields the field string or
`null` (file values are outside the model). -/
structure FormInput where
  customerId : Option String
  amount : Option String
  status : Option String
deriving DecidableEq

/-- The flattened per-field error lists of a failed parse
(`error.flatten().fieldErrors`). -/
structure FieldErrors where
  customerId : List String
  amount : List String
  status : List String
deriving DecidableEq

/-- `z.string()` with a custom `invalid_type_error`: `null` is a type
error. -/
def customerIdErrors (v : Option String) : List String :=
  match v with
  | none => ["Please select a customer"]
  | some _ => []

/-- `z.coerce.number().gt(0, ...)`: coercion failure is a type error, a
coerced value not greater than zero violates the constraint. -/
def amountErrors (v : Option String) : List String :=
  match coerceNumber v with
  | none => ["Expected number, received nan"]
  | some q => if q ≤ 0 then ["Please enter an amount greater than $0"] else []

/-- The status enum: `null` triggers the custom `invalid_type_error`, a
string outside the enum triggers the invalid-enum-value issue. -/
def statusErrors (v : Option String) : List String :=
  match v with
  | none => ["Please select an invoice status"]
  | some s => if s = "pending" ∨ s = "paid" then [] else ["Invalid enum value"]

/-- Result of `CreateInvoice.safeParse` / `UpdateInvoice.safeParse`. -/
inductive SafeParseResult where
  | ok (customerId : String) (amount : JsNumber) (status : String)
  | err (fieldErrors : FieldErrors)
deriving DecidableEq

/-- `safeParse` on the schema `FormSchema.omit(id, date)`: every field is
validated and all issues are collected; success carries the coerced data. -/
def safeParseInvoiceForm (inp : FormInput) : SafeParseResult :=
  if customerIdErrors inp.customerId = [] ∧ amountErrors inp.amount = [] ∧
      statusErrors inp.status = [] then
    match inp.customerId, coerceNumber inp.amount, inp.status with
    | some c, some q, some s => .ok c q s
    | _, _, _ =>
      .err ⟨customerIdErrors inp.customerId, amountErrors inp.amount, statusErrors inp.status⟩
  else
    .err ⟨customerIdErrors inp.customerId, amountErrors inp.amount, statusErrors inp.status⟩

/-- One observable side effect of a server action, in execution order. -/
inductive Effect where
  | sqlInsert (customerId : String) (amount : JsNumber) (status : String) (date : String)
  | sqlUpdate (id : String) (customerId : String) (amount : JsNumber) (status : String)
  | sqlDelete (id : String)
  | revalidatePath (path : String)
  | redirect (path : String)
deriving DecidableEq

/-- The value a server action resolves with: the `State` object on a
validation or database failure, or the terminal redirect. -/
inductive ActionResult where
  | formErrors (errors : FieldErrors) (message : String)
  | dbMessage (message : String)
  | redirected (path : String)
deriving DecidableEq

def Effect.isInsert : Effect → Bool
  | .sqlInsert _ _ _ _ => true
  | _ => false

def Effect.isRevalidate : Effect → Bool
  | .revalidatePath _ => true
  | _ => false

def Effect.isRedirect : Effect → Bool
  | .redirect _ => true
  | _ => false

/-- `createInvoice(prevState, formData)`: validate, derive cents and date,
insert, then revalidate and redirect; `dbOk` is the storage oracle and
`today` the current UTC calendar date. -/
def createInvoice (inp : FormInput) (dbOk : Bool) (today : String) :
    ActionResult × List Effect :=
  match safeParseInvoiceForm inp with
  | .err fe => (.formErrors fe "Missing fields. Failed to create invoice.", [])
  | .ok customerId amount status =>
    let amountInCents := jsMul amount (jsOfNat 100)
    if dbOk then
      (.redirected "/dashboard/invoices",
        [.sqlInsert customerId amountInCents status today,
          .revalidatePath "/dashboard/invoices",
          .redirect "/dashboard/invoices"])
    else
      (.dbMessage "Database error: Failed to create invoice.",
        [.sqlInsert customerId amountInCents status today])

/-- `updateInvoice(id, prevState, formData)`: same validation and
derivation, an UPDATE keyed by the externally supplied `id`, then the same
revalidate-and-redirect tail. -/
def updateInvoice (id : String) (inp : FormInput) (dbOk : Bool) :
    ActionResult × List Effect :=
  match safeParseInvoiceForm inp with
  | .err fe =>
    (.formErrors fe "Missing fields or invalid amount. Failed to update invoice.", [])
  | .ok customerId amount status =>
    let amountInCents := jsMul amount (jsOfNat 100)
    if dbOk then
      (.redirected "/dashboard/invoices",
        [.sqlUpdate id customerId amountInCents status,
          .revalidatePath "/dashboard/invoices",
          .redirect "/dashboard/invoices"])
    else
      (.dbMessage "Database error: Failed to create invoice.",
        [.sqlUpdate id customerId amountInCents status])

/-- The top-level `message` field of a returned `State`, when present. -/
def topMessage : ActionResult → Option String
  | .formErrors _ m => some m
  | .dbMessage m => some m
  | .redirected _ => none

/-- The amount bound into the first SQL statement of a trace, when that
statement is an INSERT. -/
def firstInsertAmount (r : ActionResult × List Effect) : Option JsNumber :=
  match r.2 with
  | .sqlInsert _ a _ _ :: _ => some a
  | _ => none

/-- A row of the `invoices` table. -/
structure InvoiceRow where
  id : String
  customer_id : String
  amount : JsNumber
  status : String
  date : String
deriving DecidableEq

/-- Relational semantics of the UPDATE statement issued by `updateInvoice`:
`UPDATE invoices SET customer_id, amount, status WHERE id = rowId`. -/
def applySqlUpdate (rowId customerId : String) (amount : JsNumber) (status : String)
    (db : List InvoiceRow) : List InvoiceRow :=
  db.map (fun r =>
    if r.id = rowId then
      { r with customer_id := customerId, amount := amount, status := status }
    else r)

/-- What the `signIn` collaborator does on a given call: succeed, throw an
`AuthError` with a `type` tag, or throw a foreign error. -/
inductive SignInOutcome where
  | success
  | authError (ty : String)
  | otherError (message : String)
deriving DecidableEq

/-- `authenticate(prevState, formData)`: `Except.error` models an exception
propagating to the caller, `Except.ok` the returned value (`none` is the
implicit `undefined` of the success path). -/
def authenticate (outcome : SignInOutcome) : Except String (Option String) :=
  match outcome with
  | .success => .ok none
  | .authError ty =>
    .ok (some (if ty = "CredentialsSignin" then "Invalid credentials." else "Something went wrong."))
  | .otherError e => .error e

/-- A URL query string as an ordered list of key-value pairs, possibly with
repeated keys (the `URLSearchParams` contents). -/
abbrev SearchParams := List (String × String)

/-- `URLSearchParams.delete(k)`: drop every pair whose key is `k`. -/
def removeKey (k : String) : SearchParams → SearchParams
  | [] => []
  | p :: rest => if p.1 = k then removeKey k rest else p :: removeKey k rest

/-- `URLSearchParams.has(k)`: whether some pair has key `k`. -/
def containsKey (k : String) : SearchParams → Bool
  | [] => false
  | p :: rest => if p.1 = k then true else containsKey k rest

/-- `URLSearchParams.get(k)`: the value of the first pair with key `k`. -/
def getParam (k : String) : SearchParams → Option String
  | [] => none
  | p :: rest => if p.1 = k then some p.2 else getParam k rest

/-- Value update of `URLSearchParams.set` when the key is present: the first
pair with the key takes the new value and the later ones are dropped. -/
def setFirst (k v : String) : SearchParams → SearchParams
  | [] => []
  | p :: rest => if p.1 = k then (k, v) :: removeKey k rest else p :: setFirst k v rest

/-- `URLSearchParams.set(k, v)`: update in place when present, else append. -/
def setParam (ps : SearchParams) (k v : String) : SearchParams :=
  if containsKey k ps then setFirst k v ps else ps ++ [(k, v)]

/-- `URLSearchParams.toString()` (percent-encoding elided: keys and values
here are plain text). -/
def toQueryString (ps : SearchParams) : String :=
  String.intercalate "&" (ps.map (fun p => p.1 ++ "=" ++ p.2))

/-- A client-side navigation request issued through the router. -/
inductive NavAction where
  | replaceUrl (url : String)
  | pushUrl (url : String)
deriving DecidableEq

/-- The query-parameter set `handleSearch` builds from the current one:
`page` is set to `"1"`, then `query` is set to the term when the term is
truthy (non-empty) and deleted otherwise. -/
def recomputedParams (searchParams : SearchParams) (term : String) : SearchParams :=
  if term ≠ "" then setParam (setParam searchParams "page" "1") "query" term
  else removeKey "query" (setParam searchParams "page" "1")

/-- The debounced `handleSearch` callback: recompute the parameters and
replace the current history entry with the same path and the new query
string. -/
def handleSearch (searchParams : SearchParams) (pathname term : String) : NavAction :=
  .replaceUrl (pathname ++ "?" ++ toQueryString (recomputedParams searchParams term))

/-! Library of facts about the `URLSearchParams` operations. -/

theorem getParam_removeKey (k q : String) (ps : SearchParams) (h : q ≠ k) :
    getParam q (removeKey k ps) = getParam q ps := by
  induction ps with
  | nil => rfl
  | cons p rest ih =>
    by_cases hp : p.1 = k
    · have hq : p.1 ≠ q := by rw [hp]; exact fun hkq => h hkq.symm
      simp [removeKey, getParam, hp, hq, ih, h, Ne.symm h]
    · by_cases hq : p.1 = q
      · simp [removeKey, getParam, hp, hq, h, Ne.symm h]
      · simp [removeKey, getParam, hp, hq, ih, h, Ne.symm h]

theorem containsKey_removeKey_self (k : String) (ps : SearchParams) :
    containsKey k (removeKey k ps) = false := by
  induction ps with
  | nil => rfl
  | cons p rest ih =>
    by_cases hp : p.1 = k
    · simp [removeKey, hp, ih]
    · simp [removeKey, containsKey, hp, ih]

theorem getParam_of_containsKey_false (k : String) (ps : SearchParams)
    (h : containsKey k ps = false) : getParam k ps = none := by
  induction ps with
  | nil => rfl
  | cons p rest ih =>
    by_cases hp : p.1 = k
    · simp [containsKey, hp] at h
    · simp [containsKey, hp] at h
      simp [getParam, hp, ih h]

theorem getParam_append_of_none (k : String) (ps qs : SearchParams)
    (h : getParam k ps = none) : getParam k (ps ++ qs) = getParam k qs := by
  induction ps with
  | nil => rfl
  | cons p rest ih =>
    by_cases hp : p.1 = k
    · simp [getParam, hp] at h
    · simp [getParam, hp] at h ⊢
      exact ih h

theorem getParam_append_single_other (k q v : String) (ps : SearchParams) (h : q ≠ k) :
    getParam q (ps ++ [(k, v)]) = getParam q ps := by
  induction ps with
  | nil => simp [getParam, Ne.symm h]
  | cons p rest ih =>
    by_cases hp : p.1 = q
    · simp [getParam, hp]
    · simp [getParam, hp, ih]

theorem getParam_setFirst_self (k v : String) (ps : SearchParams)
    (h : containsKey k ps = true) : getParam k (setFirst k v ps) = some v := by
  induction ps with
  | nil => simp [containsKey] at h
  | cons p rest ih =>
    by_cases hp : p.1 = k
    · simp [setFirst, getParam, hp]
    · simp [containsKey, hp] at h
      simp [setFirst, getParam, hp, ih h]

theorem getParam_setFirst_other (k v q : String) (ps : SearchParams) (h : q ≠ k) :
    getParam q (setFirst k v ps) = getParam q ps := by
  induction ps with
  | nil => rfl
  | cons p rest ih =>
    by_cases hp : p.1 = k
    · have hq : p.1 ≠ q := by rw [hp]; exact fun hkq => h hkq.symm
      simp [setFirst, getParam, hp, hq, Ne.symm h, getParam_removeKey k q rest h]
    · by_cases hq : p.1 = q
      · simp [setFirst, getParam, hp, hq, h, Ne.symm h]
      · simp [setFirst, getParam, hp, hq, ih, h, Ne.symm h]

theorem getParam_setParam_self (ps : SearchParams) (k v : String) :
    getParam k (setParam ps k v) = some v := by
  unfold setParam
  by_cases h : containsKey k ps
  · simpa [h] using getParam_setFirst_self k v ps h
  · have hn : containsKey k ps = false := by simpa using h
    rw [if_neg (by simp [hn])]
    rw [getParam_append_of_none k ps _ (getParam_of_containsKey_false k ps hn)]
    simp [getParam]

theorem getParam_setParam_other (ps : SearchParams) (k v q : String) (h : q ≠ k) :
    getParam q (setParam ps k v) = getParam q ps := by
  unfold setParam
  by_cases hc : containsKey k ps
  · simpa [hc] using getParam_setFirst_other k v q ps h
  · have hn : containsKey k ps = false := by simpa using hc
    rw [if_neg (by simp [hn])]
    exact getParam_append_single_other k q v ps h

theorem containsKey_removeKey_other (k q : String) (ps : SearchParams) (h : q ≠ k) :
    containsKey q (removeKey k ps) = containsKey q ps := by
  induction ps with
  | nil => rfl
  | cons p rest ih =>
    by_cases hp : p.1 = k
    · have hq : p.1 ≠ q := by rw [hp]; exact fun hkq => h hkq.symm
      simp [removeKey, containsKey, hp, hq, ih, h, Ne.symm h]
    · by_cases hq : p.1 = q
      · simp [removeKey, containsKey, hp, hq, h, Ne.symm h]
      · simp [removeKey, containsKey, hp, hq, ih, h, Ne.symm h]

theorem removeKey_idem (k : String) (ps : SearchParams) :
    removeKey k (removeKey k ps) = removeKey k ps := by
  induction ps with
  | nil => rfl
  | cons p rest ih =>
    by_cases hp : p.1 = k
    · simp [removeKey, hp, ih]
    · simp [removeKey, hp, ih]

theorem removeKey_comm (a b : String) (ps : SearchParams) :
    removeKey a (removeKey b ps) = removeKey b (removeKey a ps) := by
  induction ps with
  | nil => rfl
  | cons p rest ih =>
    by_cases hb : p.1 = b
    · by_cases ha : p.1 = a
      · have hab : a = b := by rw [← ha, hb]
        subst hab
        rfl
      · have hba : ¬b = a := fun hc => ha (hb.trans hc)
        simp [removeKey, ha, hb, hba, ih]
    · by_cases ha : p.1 = a
      · have hab : ¬a = b := fun hc => hb (ha.trans hc)
        simp [removeKey, ha, hb, hab, ih]
      · simp [removeKey, ha, hb, ih]

theorem removeKey_append (k : String) (ps qs : SearchParams) :
    removeKey k (ps ++ qs) = removeKey k ps ++ removeKey k qs := by
  induction ps with
  | nil => rfl
  | cons p rest ih =>
    by_cases hp : p.1 = k
    · simp [removeKey, hp, ih]
    · simp [removeKey, hp, ih]

theorem removeKey_setFirst (k v : String) (ps : SearchParams) :
    removeKey k (setFirst k v ps) = removeKey k ps := by
  induction ps with
  | nil => rfl
  | cons p rest ih =>
    by_cases hp : p.1 = k
    · simp [setFirst, removeKey, hp, removeKey_idem]
    · simp [setFirst, removeKey, hp, ih]

theorem removeKey_setParam (ps : SearchParams) (k v : String) :
    removeKey k (setParam ps k v) = removeKey k ps := by
  unfold setParam
  by_cases hc : containsKey k ps
  · simpa [hc] using removeKey_setFirst k v ps
  · have hn : containsKey k ps = false := by simpa using hc
    rw [if_neg (by simp [hn]), removeKey_append]
    simp [removeKey]

/-! Library of facts about the form validator. -/

theorem amountErrors_of_nan (a : Option String) (h : coerceNumber a = none) :
    amountErrors a = ["Expected number, received nan"] := by
  unfold amountErrors
  rw [h]

theorem amountErrors_of_nonpos (a : Option String) (q : JsNumber)
    (h : coerceNumber a = some q) (hq : q ≤ 0) :
    amountErrors a = ["Please enter an amount greater than $0"] := by
  unfold amountErrors
  rw [h]
  simp [hq]

theorem statusErrors_ne_nil (v : Option String)
    (h : ¬(v = some "pending" ∨ v = some "paid")) : statusErrors v ≠ [] := by
  match v with
  | none => simp [statusErrors]
  | some s =>
    have h1 : s ≠ "pending" := fun hs => h (Or.inl (by rw [hs]))
    have h2 : s ≠ "paid" := fun hs => h (Or.inr (by rw [hs]))
    simp [statusErrors, h1, h2]

theorem safeParse_err (inp : FormInput)
    (h : ¬(customerIdErrors inp.customerId = [] ∧ amountErrors inp.amount = [] ∧
      statusErrors inp.status = [])) :
    safeParseInvoiceForm inp =
      .err ⟨customerIdErrors inp.customerId, amountErrors inp.amount, statusErrors inp.status⟩ := by
  unfold safeParseInvoiceForm
  rw [if_neg h]

/-! The claims. -/

/-- C1: for every create or update submission in which at least one of
`customerId`, `amount`, `status` fails its rule, the operation returns an
`Invalid` outcome whose field-error map contains an entry for every
offending field simultaneously, not only the first one encountered. -/
theorem invalid_submission_reports_every_offending_field (inp : FormInput) (dbOk : Bool)
    (today id : String)
    (h : inp.customerId = none
      ∨ coerceNumber inp.amount = none
      ∨ (∃ q : JsNumber, coerceNumber inp.amount = some q ∧ q ≤ 0)
      ∨ ¬(inp.status = some "pending" ∨ inp.status = some "paid")) :
    ∃ fe : FieldErrors,
      (createInvoice inp dbOk today).1 = .formErrors fe "Missing fields. Failed to create invoice."
      ∧ (updateInvoice id inp dbOk).1
        = .formErrors fe "Missing fields or invalid amount. Failed to update invoice."
      ∧ (inp.customerId = none → fe.customerId ≠ [])
      ∧ (coerceNumber inp.amount = none
          ∨ (∃ q : JsNumber, coerceNumber inp.amount = some q ∧ q ≤ 0) → fe.amount ≠ [])
      ∧ (¬(inp.status = some "pending" ∨ inp.status = some "paid") → fe.status ≠ []) := by
  have hne : ¬(customerIdErrors inp.customerId = [] ∧ amountErrors inp.amount = []
      ∧ statusErrors inp.status = []) := by
    rintro ⟨hc, ha, hs⟩
    rcases h with h1 | h2 | ⟨q, hq, hq0⟩ | h4
    · rw [h1] at hc
      exact absurd hc (by simp [customerIdErrors])
    · rw [amountErrors_of_nan _ h2] at ha
      exact absurd ha (by simp)
    · rw [amountErrors_of_nonpos _ q hq hq0] at ha
      exact absurd ha (by simp)
    · exact statusErrors_ne_nil _ h4 hs
  have hparse := safeParse_err inp hne
  refine ⟨⟨customerIdErrors inp.customerId, amountErrors inp.amount, statusErrors inp.status⟩,
    by simp [createInvoice, hparse], by simp [updateInvoice, hparse], ?_, ?_, ?_⟩
  · intro hc
    rw [hc]
    simp [customerIdErrors]
  · rintro (h2 | ⟨q, hq, hq0⟩)
    · rw [amountErrors_of_nan _ h2]
      simp
    · rw [amountErrors_of_nonpos _ q hq hq0]
      simp
  · intro h4
    exact statusErrors_ne_nil _ h4

/-- C1 witness: a submission offending on all three fields at once. -/
theorem invalid_submission_reports_every_offending_field_witness :
    ∃ fe : FieldErrors,
      (createInvoice ⟨none, some "abc", some "draft"⟩ true "2026-01-01").1
        = .formErrors fe "Missing fields. Failed to create invoice."
      ∧ (updateInvoice "inv-1" ⟨none, some "abc", some "draft"⟩ true).1
        = .formErrors fe "Missing fields or invalid amount. Failed to update invoice."
      ∧ ((⟨none, some "abc", some "draft"⟩ : FormInput).customerId = none → fe.customerId ≠ [])
      ∧ (coerceNumber (⟨none, some "abc", some "draft"⟩ : FormInput).amount = none
          ∨ (∃ q : JsNumber,
              coerceNumber (⟨none, some "abc", some "draft"⟩ : FormInput).amount = some q ∧ q ≤ 0)
          → fe.amount ≠ [])
      ∧ (¬((⟨none, some "abc", some "draft"⟩ : FormInput).status = some "pending"
          ∨ (⟨none, some "abc", some "draft"⟩ : FormInput).status = some "paid")
          → fe.status ≠ []) :=
  invalid_submission_reports_every_offending_field ⟨none, some "abc", some "draft"⟩ true
    "2026-01-01" "inv-1" (Or.inl rfl)

/-- C2: a create with a valid submission performs exactly one insert, then
one invalidation of the invoice-list view, then the redirect, in that
order; a create whose insert fails returns the database-error message and
performs zero invalidations and zero navigations. -/
theorem create_effect_order_and_failure_isolation (inp : FormInput) (today : String)
    (c : String) (a : JsNumber) (s : String) (h : safeParseInvoiceForm inp = .ok c a s) :
    createInvoice inp true today =
      (.redirected "/dashboard/invoices",
        [.sqlInsert c (jsMul a (jsOfNat 100)) s today,
          .revalidatePath "/dashboard/invoices",
          .redirect "/dashboard/invoices"])
    ∧ (createInvoice inp true today).2.countP Effect.isInsert = 1
    ∧ (createInvoice inp true today).2.countP Effect.isRevalidate = 1
    ∧ createInvoice inp false today =
      (.dbMessage "Database error: Failed to create invoice.",
        [.sqlInsert c (jsMul a (jsOfNat 100)) s today])
    ∧ (createInvoice inp false today).2.countP Effect.isRevalidate = 0
    ∧ (createInvoice inp false today).2.countP Effect.isRedirect = 0 := by
  have htrue : createInvoice inp true today =
      (.redirected "/dashboard/invoices",
        [.sqlInsert c (jsMul a (jsOfNat 100)) s today,
          .revalidatePath "/dashboard/invoices",
          .redirect "/dashboard/invoices"]) := by
    simp [createInvoice, h]
  have hfalse : createInvoice inp false today =
      (.dbMessage "Database error: Failed to create invoice.",
        [.sqlInsert c (jsMul a (jsOfNat 100)) s today]) := by
    simp [createInvoice, h]
  refine ⟨htrue, ?_, ?_, hfalse, ?_, ?_⟩
  · rw [htrue]
    rfl
  · rw [htrue]
    rfl
  · rw [hfalse]
    rfl
  · rw [hfalse]
    rfl

/-- C2 witness: the valid submission from the source's own trace comment. -/
theorem create_effect_order_and_failure_isolation_witness :
    createInvoice ⟨some "3958dc9e-712f-4377-85e9-fec4b6a6442a", some "145", some "paid"⟩
        true "2026-01-01" =
      (.redirected "/dashboard/invoices",
        [.sqlInsert "3958dc9e-712f-4377-85e9-fec4b6a6442a"
            (jsMul (jsOfNat 145) (jsOfNat 100)) "paid" "2026-01-01",
          .revalidatePath "/dashboard/invoices",
          .redirect "/dashboard/invoices"])
    ∧ (createInvoice ⟨some "3958dc9e-712f-4377-85e9-fec4b6a6442a", some "145", some "paid"⟩
        true "2026-01-01").2.countP Effect.isInsert = 1
    ∧ (createInvoice ⟨some "3958dc9e-712f-4377-85e9-fec4b6a6442a", some "145", some "paid"⟩
        true "2026-01-01").2.countP Effect.isRevalidate = 1
    ∧ createInvoice ⟨some "3958dc9e-712f-4377-85e9-fec4b6a6442a", some "145", some "paid"⟩
        false "2026-01-01" =
      (.dbMessage "Database error: Failed to create invoice.",
        [.sqlInsert "3958dc9e-712f-4377-85e9-fec4b6a6442a"
            (jsMul (jsOfNat 145) (jsOfNat 100)) "paid" "2026-01-01"])
    ∧ (createInvoice ⟨some "3958dc9e-712f-4377-85e9-fec4b6a6442a", some "145", some "paid"⟩
        false "2026-01-01").2.countP Effect.isRevalidate = 0
    ∧ (createInvoice ⟨some "3958dc9e-712f-4377-85e9-fec4b6a6442a", some "145", some "paid"⟩
        false "2026-01-01").2.countP Effect.isRedirect = 0 :=
  create_effect_order_and_failure_isolation
    ⟨some "3958dc9e-712f-4377-85e9-fec4b6a6442a", some "145", some "paid"⟩ "2026-01-01"
    "3958dc9e-712f-4377-85e9-fec4b6a6442a" (jsOfNat 145) "paid" (by decide)

/-- C3 counterexample: the valid submission with amount `"1.15"` stores
`114.99999999999999` (the double `8092405580431359 * 2 ^ (-46)`), not the
exact minor-unit value `115`: two-decimal conversion is not always exact. -/
theorem cents_conversion_inexact_for_one_fifteen :
    firstInsertAmount (createInvoice ⟨some "customer-1", some "1.15", some "pending"⟩
        true "2026-01-01")
      = some ((8092405580431359 * pow2 1028 : ℕ) : ℤ)
    ∧ firstInsertAmount (createInvoice ⟨some "customer-1", some "1.15", some "pending"⟩
        true "2026-01-01")
      ≠ some (jsOfNat 115) := by
  constructor
  · decide
  · decide

/-- C3 amended: the stored amount is the correctly rounded binary64 product
of the coerced amount and `100`; for the submission `"12.34"` this is the
exact value `1234`, but not every two-decimal amount converts exactly. -/
theorem stored_amount_is_rounded_double_product (inp : FormInput) (dbOk : Bool)
    (today id : String) (c : String) (a : JsNumber) (s : String)
    (h : safeParseInvoiceForm inp = .ok c a s) :
    firstInsertAmount (createInvoice inp dbOk today) = some (jsMul a (jsOfNat 100))
    ∧ (updateInvoice id inp dbOk).2.head? = some (.sqlUpdate id c (jsMul a (jsOfNat 100)) s)
    ∧ parseDecimal "12.34" = some (ratToF64 false 1234 100)
    ∧ jsMul (ratToF64 false 1234 100) (jsOfNat 100) = jsOfNat 1234 := by
  refine ⟨?_, ?_, by decide, by decide⟩
  · cases dbOk <;> simp [createInvoice, h, firstInsertAmount]
  · cases dbOk <;> simp [updateInvoice, h]

/-- C3 amended witness: the `"12.34"` submission stores exactly `1234`. -/
theorem stored_amount_is_rounded_double_product_witness :
    firstInsertAmount (createInvoice ⟨some "customer-1", some "12.34", some "paid"⟩
        true "2026-01-01")
      = some (jsMul (ratToF64 false 1234 100) (jsOfNat 100))
    ∧ (updateInvoice "inv-1" ⟨some "customer-1", some "12.34", some "paid"⟩ true).2.head?
      = some (.sqlUpdate "inv-1" "customer-1"
          (jsMul (ratToF64 false 1234 100) (jsOfNat 100)) "paid")
    ∧ parseDecimal "12.34" = some (ratToF64 false 1234 100)
    ∧ jsMul (ratToF64 false 1234 100) (jsOfNat 100) = jsOfNat 1234 :=
  stored_amount_is_rounded_double_product ⟨some "customer-1", some "12.34", some "paid"⟩ true
    "2026-01-01" "inv-1" "customer-1" (ratToF64 false 1234 100) "paid" (by decide)

/-- C4: every submission whose amount coerces to a value at most `0` is
rejected — whatever the other fields hold — and the amount error list
carries the dollar message. -/
theorem nonpositive_amount_always_rejected (inp : FormInput) (dbOk : Bool) (today id : String)
    (q : JsNumber) (hq : coerceNumber inp.amount = some q) (h0 : q ≤ 0) :
    ∃ fe : FieldErrors,
      (createInvoice inp dbOk today).1 = .formErrors fe "Missing fields. Failed to create invoice."
      ∧ (updateInvoice id inp dbOk).1
        = .formErrors fe "Missing fields or invalid amount. Failed to update invoice."
      ∧ "Please enter an amount greater than $0" ∈ fe.amount := by
  have hae := amountErrors_of_nonpos inp.amount q hq h0
  have hne : ¬(customerIdErrors inp.customerId = [] ∧ amountErrors inp.amount = []
      ∧ statusErrors inp.status = []) := by
    rintro ⟨_, ha, _⟩
    rw [hae] at ha
    exact absurd ha (by simp)
  have hparse := safeParse_err inp hne
  refine ⟨⟨customerIdErrors inp.customerId, amountErrors inp.amount, statusErrors inp.status⟩,
    by simp [createInvoice, hparse], by simp [updateInvoice, hparse], ?_⟩
  rw [hae]
  simp

/-- C4 witness: amount `"0"` next to otherwise valid fields. -/
theorem nonpositive_amount_always_rejected_witness :
    ∃ fe : FieldErrors,
      (createInvoice ⟨some "customer-1", some "0", some "paid"⟩ true "2026-01-01").1
        = .formErrors fe "Missing fields. Failed to create invoice."
      ∧ (updateInvoice "inv-1" ⟨some "customer-1", some "0", some "paid"⟩ true).1
        = .formErrors fe "Missing fields or invalid amount. Failed to update invoice."
      ∧ "Please enter an amount greater than $0" ∈ fe.amount :=
  nonpositive_amount_always_rejected ⟨some "customer-1", some "0", some "paid"⟩ true
    "2026-01-01" "inv-1" 0 (by decide) (by decide)

/-- C5: authenticate has exactly the four outcomes: success returns no
value, a `CredentialsSignin` auth error returns the invalid-credentials
text, any other auth error returns the generic text, and a foreign error
is re-raised unchanged. -/
theorem authenticate_has_exactly_four_outcomes :
    authenticate .success = .ok none
    ∧ (∀ ty : String, ty = "CredentialsSignin" →
        authenticate (.authError ty) = .ok (some "Invalid credentials."))
    ∧ (∀ ty : String, ty ≠ "CredentialsSignin" →
        authenticate (.authError ty) = .ok (some "Something went wrong."))
    ∧ (∀ e : String, authenticate (.otherError e) = .error e) := by
  refine ⟨rfl, ?_, ?_, fun e => rfl⟩
  · intro ty h
    simp [authenticate, h]
  · intro ty h
    simp [authenticate, h]

/-- C5 witness: one collaborator outcome of each failing kind. -/
theorem authenticate_has_exactly_four_outcomes_witness :
    authenticate (.authError "CredentialsSignin") = .ok (some "Invalid credentials.")
    ∧ authenticate (.authError "OAuthSignInError") = .ok (some "Something went wrong.") :=
  ⟨authenticate_has_exactly_four_outcomes.2.1 "CredentialsSignin" rfl,
    authenticate_has_exactly_four_outcomes.2.2.1 "OAuthSignInError" (by decide)⟩

/-- C6: the UPDATE statement writes only `customer_id`, `amount` and
`status` of the rows matching the supplied id: the `date` and `id`
columns of every row are unchanged, and non-matching rows are untouched. -/
theorem update_statement_preserves_id_and_date (rowId customerId : String)
    (amount : JsNumber) (status : String) (db : List InvoiceRow) :
    (applySqlUpdate rowId customerId amount status db).map InvoiceRow.date
      = db.map InvoiceRow.date
    ∧ (applySqlUpdate rowId customerId amount status db).map InvoiceRow.id
      = db.map InvoiceRow.id
    ∧ (applySqlUpdate rowId customerId amount status db).filter (fun r => r.id != rowId)
      = db.filter (fun r => r.id != rowId) := by
  refine ⟨?_, ?_, ?_⟩
  · induction db with
    | nil => rfl
    | cons r rest ih =>
      simp only [applySqlUpdate, List.map_cons] at ih ⊢
      rw [ih]
      by_cases hr : r.id = rowId <;> simp [hr]
  · induction db with
    | nil => rfl
    | cons r rest ih =>
      simp only [applySqlUpdate, List.map_cons] at ih ⊢
      rw [ih]
      by_cases hr : r.id = rowId <;> simp [hr]
  · induction db with
    | nil => rfl
    | cons r rest ih =>
      simp only [applySqlUpdate, List.map_cons, List.filter_cons] at ih ⊢
      by_cases hr : r.id = rowId
      · simp [hr, ih]
      · simp [hr, ih]

/-- C7: after the debounce window the recomputed parameter set has `page`
equal to `"1"` unconditionally, has `query` equal to the term exactly when
the term is non-empty and no `query` parameter at all when it is empty,
and is applied by replacing the current history entry with the same path
and the recomputed query string. -/
theorem handleSearch_resets_page_and_reflects_term (sp : SearchParams)
    (pathname term : String) :
    getParam "page" (recomputedParams sp term) = some "1"
    ∧ (term ≠ "" → getParam "query" (recomputedParams sp term) = some term)
    ∧ (term = "" → containsKey "query" (recomputedParams sp term) = false)
    ∧ handleSearch sp pathname term
      = .replaceUrl (pathname ++ "?" ++ toQueryString (recomputedParams sp term)) := by
  refine ⟨?_, ?_, ?_, rfl⟩
  · unfold recomputedParams
    by_cases ht : term = ""
    · simp only [ht, ne_eq, not_true_eq_false, if_false]
      rw [getParam_removeKey _ _ _ (by decide)]
      exact getParam_setParam_self _ "page" "1"
    · simp only [ne_eq, ht, not_false_eq_true, if_true]
      rw [getParam_setParam_other _ _ _ _ (by decide)]
      exact getParam_setParam_self _ "page" "1"
  · intro ht
    unfold recomputedParams
    simp only [ne_eq, ht, not_false_eq_true, if_true]
    exact getParam_setParam_self _ "query" term
  · intro ht
    unfold recomputedParams
    simp only [ht, ne_eq, not_true_eq_false, if_false]
    exact containsKey_removeKey_self "query" _

/-- C7 witness: a non-empty term over a stale `page`, and an empty term
over a present `query` parameter. -/
theorem handleSearch_resets_page_and_reflects_term_witness :
    getParam "page" (recomputedParams [("page", "5"), ("sort", "asc")] "lee") = some "1"
    ∧ getParam "query" (recomputedParams [("page", "5"), ("sort", "asc")] "lee") = some "lee"
    ∧ containsKey "query" (recomputedParams [("page", "5"), ("query", "old")] "") = false :=
  ⟨(handleSearch_resets_page_and_reflects_term [("page", "5"), ("sort", "asc")]
      "/dashboard/invoices" "lee").1,
    (handleSearch_resets_page_and_reflects_term [("page", "5"), ("sort", "asc")]
      "/dashboard/invoices" "lee").2.1 (by decide),
    (handleSearch_resets_page_and_reflects_term [("page", "5"), ("query", "old")]
      "/dashboard/invoices" "").2.2.1 rfl⟩

/-- C8 counterexample: on a validation failure the update path returns the
message with the extra clause, not the text the claim states. -/
theorem update_validation_message_differs :
    topMessage (updateInvoice "inv-1" ⟨none, none, none⟩ true).1
      = some "Missing fields or invalid amount. Failed to update invoice."
    ∧ topMessage (updateInvoice "inv-1" ⟨none, none, none⟩ true).1
      ≠ some "Missing fields. Failed to update invoice." := by
  constructor
  · decide
  · decide

/-- C8 amended: on validation failure the create message is the generic
create text, while the update message is "Missing fields or invalid
amount. Failed to update invoice.". -/
theorem validation_failure_messages (inp : FormInput) (dbOk : Bool) (today id : String)
    (fe : FieldErrors) (h : safeParseInvoiceForm inp = .err fe) :
    (createInvoice inp dbOk today).1
      = .formErrors fe "Missing fields. Failed to create invoice."
    ∧ (updateInvoice id inp dbOk).1
      = .formErrors fe "Missing fields or invalid amount. Failed to update invoice." := by
  constructor
  · simp [createInvoice, h]
  · simp [updateInvoice, h]

/-- C8 amended witness: the empty submission. -/
theorem validation_failure_messages_witness :
    (createInvoice ⟨none, none, none⟩ true "2026-01-01").1
      = .formErrors
          ⟨["Please select a customer"], ["Please enter an amount greater than $0"],
            ["Please select an invoice status"]⟩
          "Missing fields. Failed to create invoice."
    ∧ (updateInvoice "inv-1" ⟨none, none, none⟩ true).1
      = .formErrors
          ⟨["Please select a customer"], ["Please enter an amount greater than $0"],
            ["Please select an invoice status"]⟩
          "Missing fields or invalid amount. Failed to update invoice." :=
  validation_failure_messages ⟨none, none, none⟩ true "2026-01-01" "inv-1"
    ⟨["Please select a customer"], ["Please enter an amount greater than $0"],
      ["Please select an invoice status"]⟩ (by decide)

/-- C9: a persistence failure on the update path reports the create-style
message — the same text a create persistence failure reports. -/
theorem update_db_failure_reports_create_message (id : String) (inp : FormInput)
    (today : String) (c : String) (a : JsNumber) (s : String)
    (h : safeParseInvoiceForm inp = .ok c a s) :
    topMessage (updateInvoice id inp false).1 = some "Database error: Failed to create invoice."
    ∧ topMessage (updateInvoice id inp false).1 = topMessage (createInvoice inp false today).1 := by
  constructor
  · simp [updateInvoice, h, topMessage]
  · simp [updateInvoice, createInvoice, h, topMessage]

/-- C9 witness: a valid submission whose persistence fails. -/
theorem update_db_failure_reports_create_message_witness :
    topMessage (updateInvoice "inv-1" ⟨some "customer-1", some "145", some "paid"⟩ false).1
      = some "Database error: Failed to create invoice."
    ∧ topMessage (updateInvoice "inv-1" ⟨some "customer-1", some "145", some "paid"⟩ false).1
      = topMessage
          (createInvoice ⟨some "customer-1", some "145", some "paid"⟩ false "2026-01-01").1 :=
  update_db_failure_reports_create_message "inv-1" ⟨some "customer-1", some "145", some "paid"⟩
    "2026-01-01" "customer-1" (jsOfNat 145) "paid" (by decide)

/-- C10: the search handler carries every query parameter other than `page`
and `query` (for example a sort parameter) over unchanged into the
replaced URL's parameter set. -/
theorem handleSearch_preserves_other_params (sp : SearchParams) (term : String) :
    removeKey "page" (removeKey "query" (recomputedParams sp term))
      = removeKey "page" (removeKey "query" sp) := by
  unfold recomputedParams
  by_cases ht : term = ""
  · simp only [ht, ne_eq, not_true_eq_false, if_false]
    rw [removeKey_idem, removeKey_comm "page" "query", removeKey_setParam,
      removeKey_comm "query" "page"]
  · simp only [ne_eq, ht, not_false_eq_true, if_true]
    rw [removeKey_setParam, removeKey_comm "page" "query", removeKey_setParam,
      removeKey_comm "query" "page"]

end NextDashboard
